import Mathlib

/-!
Shallow embedding of the ACLED API client (`src/acled_client.py`) and of the
deduplication step of `src/download_ethiopia.py`, together with proofs of the
specification claims about them.

HTTP transport is modelled by explicit oracles: each network interaction the
Python code performs is one oracle value consumed at the corresponding point
of the control flow.  Python exceptions become an explicit error type,
mutation of the client's token fields becomes explicit state passing, and
Python truthiness tests (`if not self.access_token`, `if max_pages`, ...) are
modelled exactly, including their behaviour on empty strings and zero.
-/

set_option autoImplicit false

deriving instance DecidableEq for Except

/-- Python exception classes that the client code can raise.
`valueError` is the `ValueError` raised by `_get_token` on a 401 from the
token endpoint; `httpError` is `requests.exceptions.HTTPError`;
`connectionError` is the builtin `ConnectionError` the code wraps network
failures in; `requestsError` is a raw `requests.exceptions.RequestException`
propagating uncaught (as happens on a network failure inside
`_refresh_token`, whose `except` clause only catches `HTTPError`). -/
inductive PyExc where
  | valueError (msg : String)
  | httpError (msg : String)
  | connectionError (msg : String)
  | requestsError (msg : String)
deriving DecidableEq, Repr

/-- The Python class of an exception, forgetting the message. -/
inductive ExcClass where
  | valueError
  | httpError
  | connectionError
  | requestsError
deriving DecidableEq, Repr

def pyExcClass : PyExc → ExcClass
  | .valueError _ => .valueError
  | .httpError _ => .httpError
  | .connectionError _ => .connectionError
  | .requestsError _ => .requestsError

/-- The exception class with which a computation failed, if it failed. -/
def resultExcClass {A : Type} : Except PyExc A → Option ExcClass
  | .error e => some (pyExcClass e)
  | .ok _ => none

/-- Which grant type a request to the token endpoint carries
(`grant_type` field of the form body). -/
inductive Grant where
  | password
  | refresh
deriving DecidableEq, Repr

/-- The JSON body of a token-endpoint response, as the code reads it with
`token_data.get(...)`: every field may be absent. -/
structure TokenData where
  access_token : Option String
  refresh_token : Option String
  expires_in : Option Nat
deriving DecidableEq, Repr

/-- One transport-level outcome of a POST to the token endpoint:
either an HTTP response (any status code, with the parsed JSON body used
when the status is a success) or a network-level failure raised by
`requests.post`. -/
inductive TokenResp where
  | http (status : Nat) (d : TokenData) (body : String)
  | netFail (msg : String)
deriving DecidableEq, Repr

/-- `response.raise_for_status()` raises exactly for 4xx and 5xx codes. -/
def httpFail (s : Nat) : Bool := decide (400 ≤ s ∧ s < 600)

/-- The mutable token fields of `ACLEDClient`:
`self.access_token`, `self.refresh_token`, `self.token_expires_at`. -/
structure TokenState where
  access_token : Option String
  refresh_token : Option String
  token_expires_at : Option Int
deriving DecidableEq, Repr

/-- Python truthiness of an optional string: `None` and `""` are falsy. -/
def pyTruthyStr : Option String → Bool
  | none => false
  | some s => !s.isEmpty

/-- The condition `self.token_expires_at and time.time() >= self.token_expires_at`:
Python truthiness of the optional timestamp (`None` and `0` falsy) conjoined
with the comparison. -/
def tokenExpired (st : TokenState) (now : Int) : Bool :=
  match st.token_expires_at with
  | none => false
  | some e => (e != 0) && decide (e ≤ now)

/-- `ACLEDClient._get_token`, at time `now`, with transport outcome `resp`.
On success it overwrites all three token fields
(`expires_in` defaulting to 3600, minus the 60-second buffer); a 401 becomes
a `ValueError`, another error status an `HTTPError`, a network failure a
builtin `ConnectionError`.  On every error path the state is unchanged. -/
def get_token (st : TokenState) (now : Int) (resp : TokenResp) :
    Except PyExc TokenState :=
  match resp with
  | .netFail m => .error (.connectionError ("Failed to connect to ACLED API: " ++ m))
  | .http s d body =>
    if httpFail s then
      if s = 401 then
        .error (.valueError "Authentication failed. Please check your ACLED_USERNAME and ACLED_PASSWORD in config/.env")
      else
        .error (.httpError ("Failed to obtain token: " ++ toString s ++ " - " ++ body))
    else
      .ok { access_token := d.access_token
            refresh_token := d.refresh_token
            token_expires_at := some (now + (d.expires_in.getD 3600 : Int) - 60) }

/-- `ACLEDClient._refresh_token`.  `rResp` is the transport outcome of the
refresh-grant POST (if one is issued), `aResp` that of the password-grant
POST (if one is issued).  Returns the result together with the list of
token-endpoint requests actually issued, in order.  Mirrors the source:
if no refresh token is held (Python truthiness) it delegates to
`_get_token`; an `HTTPError` from `raise_for_status` is caught and falls
back to `_get_token`; a network failure from `requests.post` is NOT caught
(the `except` clause only names `HTTPError`) and propagates raw. -/
def refresh_token (st : TokenState) (now : Int) (rResp aResp : TokenResp) :
    Except PyExc TokenState × List Grant :=
  if pyTruthyStr st.refresh_token = false then
    (get_token st now aResp, [Grant.password])
  else
    match rResp with
    | .netFail m => (.error (.requestsError m), [Grant.refresh])
    | .http s d _ =>
      if httpFail s then
        (get_token st now aResp, [Grant.refresh, Grant.password])
      else
        (.ok { access_token := d.access_token
               refresh_token :=
                 match d.refresh_token with
                 | some r => some r
                 | none => st.refresh_token
               token_expires_at := some (now + (d.expires_in.getD 3600 : Int) - 60) },
         [Grant.refresh])

/-- `ACLEDClient._ensure_valid_token`: if no (truthy) access token is held,
acquire; else if the expiry timestamp is truthy and `now` has reached it,
refresh; else do nothing. -/
def ensure_valid (st : TokenState) (now : Int) (aResp rResp : TokenResp) :
    Except PyExc TokenState × List Grant :=
  if pyTruthyStr st.access_token = false then
    (get_token st now aResp, [Grant.password])
  else if tokenExpired st now then
    refresh_token st now rResp aResp
  else
    (.ok st, [])

/-- One transport-level outcome of a data-endpoint GET. -/
inductive GetResp where
  | resp (status : Nat) (body : String)
  | netFail (msg : String)
deriving DecidableEq, Repr

/-- `ACLEDClient._make_request`.  `aResp`/`rResp` feed `_ensure_valid_token`;
`tokResp` feeds the `_get_token` call of the 401 branch; `g1` and `g2` are
the transport outcomes of the first GET and of the retry GET.  Returns
(result, final token state, number of data-endpoint requests issued, list of
token-endpoint requests issued).  Faithful to the source's exception flow:
a nested `HTTPError` (from `_get_token` in the 401 branch, or from
`raise_for_status`) is caught and re-raised as
`"API request failed: <status of the last response bound> - <its text>"`;
a `ValueError` or builtin `ConnectionError` from the nested `_get_token`
propagates; a network failure of a GET is wrapped in `ConnectionError`. -/
def make_request (st : TokenState) (now : Int) (retry : Bool)
    (aResp rResp tokResp : TokenResp) (g1 g2 : GetResp) :
    Except PyExc (Nat × String) × TokenState × Nat × List Grant :=
  match ensure_valid st now aResp rResp with
  | (.error e, gs) => (.error e, st, 0, gs)
  | (.ok st1, gs) =>
    match g1 with
    | .netFail m =>
      (.error (.connectionError ("Failed to connect to ACLED API: " ++ m)), st1, 1, gs)
    | .resp s1 b1 =>
      if s1 = 401 ∧ retry = true then
        match get_token st1 now tokResp with
        | .error (PyExc.httpError _) =>
          (.error (.httpError ("API request failed: " ++ toString s1 ++ " - " ++ b1)),
           st1, 1, gs ++ [Grant.password])
        | .error e => (.error e, st1, 1, gs ++ [Grant.password])
        | .ok st2 =>
          match g2 with
          | .netFail m =>
            (.error (.connectionError ("Failed to connect to ACLED API: " ++ m)),
             st2, 2, gs ++ [Grant.password])
          | .resp s2 b2 =>
            if httpFail s2 then
              (.error (.httpError ("API request failed: " ++ toString s2 ++ " - " ++ b2)),
               st2, 2, gs ++ [Grant.password])
            else
              (.ok (s2, b2), st2, 2, gs ++ [Grant.password])
      else
        if httpFail s1 then
          (.error (.httpError ("API request failed: " ++ toString s1 ++ " - " ++ b1)),
           st1, 1, gs)
        else
          (.ok (s1, b1), st1, 1, gs)

/-- One parsed page of the data endpoint, as `get_all_pages` reads it:
`response.get("data", [])` and `response.get("count", 0)`. -/
structure Page (A : Type) where
  data : List A
  count : Nat
deriving DecidableEq, Repr

/-- Outcome of a `get_all_pages` run: the accumulated records or the
propagated exception, together with the number of data-endpoint requests
issued; `diverge` marks fuel exhaustion of the model (the Python loop would
still be running), also carrying the requests issued so far. -/
inductive GAPOut (A : Type) where
  | ok (records : List A) (requests : Nat)
  | err (e : PyExc) (requests : Nat)
  | diverge (requests : Nat)
deriving DecidableEq, Repr

/-- Number of data-endpoint requests recorded in an outcome. -/
def GAPOut.requests {A : Type} : GAPOut A → Nat
  | .ok _ r => r
  | .err _ r => r
  | .diverge r => r

/-- Record one more issued request in an outcome. -/
def addReq {A : Type} : GAPOut A → GAPOut A
  | .ok recs r => .ok recs (r + 1)
  | .err e r => .err e (r + 1)
  | .diverge r => .diverge (r + 1)

/-- The loop guard `if max_pages and page > max_pages`: Python truthiness of
`max_pages` (`None` and `0` falsy) conjoined with the comparison. -/
def maxPagesCeil (mp : Option Nat) (page : Nat) : Bool :=
  match mp with
  | none => false
  | some m => (m != 0) && decide (page > m)

/-- The `while True` loop body of `ACLEDClient.get_all_pages`, with the page
fetch (`self.get_data`) abstracted as an oracle from the current offset to
a page or a raised exception.  Arguments after `mp`: fuel, `offset`, `page`,
`all_data`. -/
def get_all_pages_aux {A : Type} (fetch : Nat → Except PyExc (Page A))
    (limit : Nat) (mp : Option Nat) : Nat → Nat → Nat → List A → GAPOut A
  | 0, _, _, _ => .diverge 0
  | fuel + 1, offset, page, acc =>
    if maxPagesCeil mp page then .ok acc 0
    else
      match fetch offset with
      | .error e => .err e 1
      | .ok pg =>
        if pg.data.isEmpty then .ok acc 1
        else
          if pg.data.length < limit ∨ acc.length + pg.data.length ≥ pg.count then
            .ok (acc ++ pg.data) 1
          else
            addReq (get_all_pages_aux fetch limit mp fuel (offset + limit) (page + 1)
              (acc ++ pg.data))

/-- `ACLEDClient.get_all_pages`: run the loop from `offset = 0`, `page = 1`,
empty accumulator. -/
def get_all_pages {A : Type} (fetch : Nat → Except PyExc (Page A))
    (limit : Nat) (mp : Option Nat) (fuel : Nat) : GAPOut A :=
  get_all_pages_aux fetch limit mp fuel 0 1 []

/-- A JSON-ish primitive value appearing in query parameters and records. -/
inductive Val where
  | str (s : String)
  | int (n : Int)
deriving DecidableEq, Repr

/-- Python `d[k] = v` on an insertion-ordered dict held as an association
list: overwrite in place if the key exists, else append. -/
def dictSet {V : Type} (d : List (String × V)) (k : String) (v : V) :
    List (String × V) :=
  match d with
  | [] => [(k, v)]
  | (k2, v2) :: rest =>
    if k2 = k then (k2, v) :: rest else (k2, v2) :: dictSet rest k v

/-- Python `{**d, **e}` / `d.update(e)`: fold the right dict into the left,
later entries winning. -/
def dictMerge {V : Type} (d e : List (String × V)) : List (String × V) :=
  e.foldl (fun acc kv => dictSet acc kv.1 kv.2) d

/-- One truthiness-guarded filter assignment `if o: params[k] = o` for a
string-valued filter (`None` and `""` falsy). -/
def setIfStr (p : List (String × Val)) (k : String) (o : Option String) :
    List (String × Val) :=
  match o with
  | some s => if !s.isEmpty then dictSet p k (.str s) else p
  | none => p

/-- One truthiness-guarded filter assignment for an integer-valued filter
(`None` and `0` falsy). -/
def setIfInt (p : List (String × Val)) (k : String) (o : Option Int) :
    List (String × Val) :=
  match o with
  | some i => if i != 0 then dictSet p k (.int i) else p
  | none => p

/-- The `fields` assignment: `if fields: params["fields"] = ",".join(fields)`
(`None` and the empty list falsy). -/
def setIfFields (p : List (String × Val)) (o : Option (List String)) :
    List (String × Val) :=
  match o with
  | some fs =>
    if !fs.isEmpty then dictSet p "fields" (.str (String.intercalate "," fs)) else p
  | none => p

/-- The query-parameter dictionary built by `ACLEDClient.get_data`:
`{"limit": limit, "offset": offset, **kwargs}` followed by the seven
truthiness-guarded filter assignments, in source order (country, iso,
event_type, event_date, year, year_where, fields).  `kwargs` is the mapping
collected by the `**kwargs` parameter; by Python's call binding it can never
contain a key equal to a named parameter of `get_data`. -/
def get_data_params (limit offset : Int) (country : Option String)
    (iso : Option Int) (event_type : Option String) (event_date : Option String)
    (year : Option Int) (year_where : Option String) (fields : Option (List String))
    (kwargs : List (String × Val)) : List (String × Val) :=
  setIfFields
    (setIfStr
      (setIfInt
        (setIfStr
          (setIfStr
            (setIfInt
              (setIfStr
                (dictMerge [("limit", Val.int limit), ("offset", Val.int offset)] kwargs)
                "country" country)
              "iso" iso)
            "event_type" event_type)
          "event_date" event_date)
        "year" year)
      "year_where" year_where)
    fields

/-- A row of the downloaded DataFrame: one record as an ordered mapping from
column names to values. -/
abbrev Rec := List (String × Val)

/-- Whether a record has a value in column `k`. -/
def recHasKey (r : Rec) (k : String) : Bool := r.any (fun kv => kv.1 == k)

/-- `k in df.columns` for a DataFrame built from a list of dicts: the key
occurs in some record. -/
def hasColumn (rs : List Rec) (k : String) : Bool := rs.any (fun r => recHasKey r k)

/-- `drop_duplicates(keep="first")` keyed by `key`: keep each record whose
key has not been seen before it, preserving order.  `seen` accumulates the
keys of kept records. -/
def dedupByKey {K : Type} [DecidableEq K] (key : Rec → K) :
    List K → List Rec → List Rec
  | _, [] => []
  | seen, r :: rest =>
    if key r ∈ seen then dedupByKey key seen rest
    else r :: dedupByKey key (key r :: seen) rest

/-- The deduplication block of `download_ethiopia_historical`: dedup by
`data_id` if that column exists, else by `event_id` if that column exists,
else by entire-record equality; report the number of records removed
(`initial_count - len(df)`). -/
def deduplicate (rs : List Rec) : List Rec × Nat :=
  let out :=
    if hasColumn rs "data_id" then dedupByKey (fun r => r.lookup "data_id") [] rs
    else if hasColumn rs "event_id" then dedupByKey (fun r => r.lookup "event_id") [] rs
    else dedupByKey (fun r => r) [] rs
  (out, rs.length - out.length)

/-- The `expires_in` a token-endpoint response contributes when its JSON is
read: the value of the field, or the default 3600 when absent. -/
def respExpiresIn : TokenResp → Nat
  | .http _ d _ => d.expires_in.getD 3600
  | .netFail _ => 3600

/-- The token-state invariant of the data model: whenever an access token is
present, an expiry timestamp is present. -/
def TokenInv (st : TokenState) : Prop :=
  st.access_token.isSome → st.token_expires_at.isSome

section TokenLemmas

lemma pyTruthyStr_some {t : String} (h : t ≠ "") : pyTruthyStr (some t) = true := by
  have hi : t.isEmpty = false := by
    cases he : t.isEmpty
    · rfl
    · exact absurd ((String.isEmpty_iff t).mp he) h
  simp [pyTruthyStr, hi]

lemma get_token_ok (st : TokenState) (now : Int) (s : Nat) (d : TokenData) (b : String)
    (hs : httpFail s = false) :
    get_token st now (.http s d b) =
      .ok ⟨d.access_token, d.refresh_token, some (now + (d.expires_in.getD 3600 : Int) - 60)⟩ := by
  simp [get_token, hs]

lemma get_token_ok_state (st : TokenState) (now : Int) (s : Nat) (d : TokenData)
    (b : String) (st' : TokenState) (h : get_token st now (.http s d b) = .ok st') :
    st' = ⟨d.access_token, d.refresh_token, some (now + (d.expires_in.getD 3600 : Int) - 60)⟩ := by
  by_cases hs : httpFail s = true
  · by_cases h401 : s = 401
    · subst h401
      simp [get_token, httpFail] at h
    · simp [get_token, hs, h401] at h
  · rw [get_token_ok st now s d b (by simpa using hs)] at h
    exact (Except.ok.injEq _ _ ▸ h).symm

lemma get_token_ok_expiry (st : TokenState) (now : Int) (resp : TokenResp)
    (st' : TokenState) (h : get_token st now resp = .ok st') :
    st'.token_expires_at = some (now + (respExpiresIn resp : Int) - 60) := by
  cases resp with
  | netFail m => simp [get_token] at h
  | http s d b => rw [get_token_ok_state st now s d b st' h]; rfl

lemma tokenInv_get_token (st : TokenState) (now : Int) (resp : TokenResp)
    (st' : TokenState) (h : get_token st now resp = .ok st') : TokenInv st' := by
  intro _
  rw [get_token_ok_expiry st now resp st' h]
  rfl

lemma ensure_valid_no_token (st : TokenState) (now : Int) (a r : TokenResp)
    (h : pyTruthyStr st.access_token = false) :
    ensure_valid st now a r = (get_token st now a, [Grant.password]) := by
  simp [ensure_valid, h]

lemma ensure_valid_fresh (st : TokenState) (now : Int) (e : Int) (a r : TokenResp)
    (ht : pyTruthyStr st.access_token = true) (he : st.token_expires_at = some e)
    (hlt : now < e) :
    ensure_valid st now a r = (.ok st, []) := by
  have hexp : tokenExpired st now = false := by
    simp [tokenExpired, he]
    omega
  simp [ensure_valid, ht, hexp]

lemma ensure_valid_expired (st : TokenState) (now : Int) (e : Int) (a r : TokenResp)
    (ht : pyTruthyStr st.access_token = true) (he : st.token_expires_at = some e)
    (hne : e ≠ 0) (hle : e ≤ now) :
    ensure_valid st now a r = refresh_token st now r a := by
  have hexp : tokenExpired st now = true := by
    simp [tokenExpired, he, hne, hle]
  simp [ensure_valid, ht, hexp]

lemma refresh_no_rt (st : TokenState) (now : Int) (r a : TokenResp)
    (h : pyTruthyStr st.refresh_token = false) :
    refresh_token st now r a = (get_token st now a, [Grant.password]) := by
  simp [refresh_token, h]

lemma refresh_http_fail (st : TokenState) (now : Int) (s : Nat) (d : TokenData)
    (b : String) (a : TokenResp)
    (hrt : pyTruthyStr st.refresh_token = true) (hs : httpFail s = true) :
    refresh_token st now (.http s d b) a =
      (get_token st now a, [Grant.refresh, Grant.password]) := by
  simp [refresh_token, hrt, hs]

lemma refresh_netfail (st : TokenState) (now : Int) (m : String) (a : TokenResp)
    (hrt : pyTruthyStr st.refresh_token = true) :
    refresh_token st now (.netFail m) a =
      (.error (.requestsError m), [Grant.refresh]) := by
  simp [refresh_token, hrt]

lemma refresh_ok (st : TokenState) (now : Int) (s : Nat) (d : TokenData)
    (b : String) (a : TokenResp)
    (hrt : pyTruthyStr st.refresh_token = true) (hs : httpFail s = false) :
    refresh_token st now (.http s d b) a =
      (.ok { access_token := d.access_token
             refresh_token :=
               match d.refresh_token with
               | some r => some r
               | none => st.refresh_token
             token_expires_at := some (now + (d.expires_in.getD 3600 : Int) - 60) },
       [Grant.refresh]) := by
  simp [refresh_token, hrt, hs]

lemma refresh_ok_expiry (st : TokenState) (now : Int) (r a : TokenResp)
    (st' : TokenState) (gs : List Grant)
    (h : refresh_token st now r a = (.ok st', gs)) :
    st'.token_expires_at = some (now + (respExpiresIn r : Int) - 60) ∨
      st'.token_expires_at = some (now + (respExpiresIn a : Int) - 60) := by
  by_cases hrt : pyTruthyStr st.refresh_token = false
  · rw [refresh_no_rt st now r a hrt] at h
    exact Or.inr (get_token_ok_expiry st now a st' (congrArg Prod.fst h))
  · replace hrt : pyTruthyStr st.refresh_token = true := by
      cases hb : pyTruthyStr st.refresh_token
      · exact absurd hb hrt
      · rfl
    cases r with
    | netFail m =>
      rw [refresh_netfail st now m a hrt] at h
      simp at h
    | http s d b =>
      by_cases hs : httpFail s = true
      · rw [refresh_http_fail st now s d b a hrt hs] at h
        exact Or.inr (get_token_ok_expiry st now a st' (congrArg Prod.fst h))
      · rw [refresh_ok st now s d b a hrt (by simpa using hs)] at h
        have h1 := congrArg Prod.fst h
        simp at h1
        rw [← h1]
        exact Or.inl rfl

lemma tokenInv_refresh (st : TokenState) (now : Int) (r a : TokenResp)
    (st' : TokenState) (gs : List Grant)
    (h : refresh_token st now r a = (.ok st', gs)) : TokenInv st' := by
  intro _
  rcases refresh_ok_expiry st now r a st' gs h with h1 | h1 <;> rw [h1] <;> rfl

lemma ensure_ok_cases (st : TokenState) (now : Int) (a r : TokenResp)
    (st' : TokenState) (gs : List Grant)
    (h : ensure_valid st now a r = (.ok st', gs)) :
    st' = st ∨
      st'.token_expires_at = some (now + (respExpiresIn a : Int) - 60) ∨
      st'.token_expires_at = some (now + (respExpiresIn r : Int) - 60) := by
  by_cases ht : pyTruthyStr st.access_token = false
  · rw [ensure_valid_no_token st now a r ht] at h
    exact Or.inr (Or.inl (get_token_ok_expiry st now a st' (congrArg Prod.fst h)))
  · unfold ensure_valid at h
    rw [if_neg ht] at h
    by_cases he : tokenExpired st now = true
    · rw [if_pos he] at h
      rcases refresh_ok_expiry st now r a st' gs h with h1 | h1
      · exact Or.inr (Or.inr h1)
      · exact Or.inr (Or.inl h1)
    · rw [if_neg he] at h
      have h1 := congrArg Prod.fst h
      simp at h1
      exact Or.inl h1.symm

lemma tokenInv_ensure (st : TokenState) (now : Int) (a r : TokenResp)
    (st' : TokenState) (gs : List Grant) (hInv : TokenInv st)
    (h : ensure_valid st now a r = (.ok st', gs)) : TokenInv st' := by
  rcases ensure_ok_cases st now a r st' gs h with h1 | h1 | h1
  · rw [h1]; exact hInv
  · intro _; rw [h1]; rfl
  · intro _; rw [h1]; rfl

lemma tokenInv_make_request (st : TokenState) (now : Int) (retry : Bool)
    (aR rR tok : TokenResp) (g1 g2 : GetResp) (hInv : TokenInv st) :
    TokenInv (make_request st now retry aR rR tok g1 g2).2.1 := by
  unfold make_request
  rcases hev : ensure_valid st now aR rR with ⟨res, gs⟩
  cases res with
  | error e => simpa using hInv
  | ok st1 =>
    have h1 : TokenInv st1 := tokenInv_ensure st now aR rR st1 gs hInv hev
    cases g1 with
    | netFail m => simpa using h1
    | resp s1 b1 =>
      dsimp only
      by_cases hc : s1 = 401 ∧ retry = true
      · rw [if_pos hc]
        rcases hg : get_token st1 now tok with e2 | st2
        · cases e2 <;> simpa using h1
        · have h2 : TokenInv st2 := tokenInv_get_token st1 now tok st2 hg
          cases g2 with
          | netFail m => simpa using h2
          | resp s2 b2 =>
            by_cases hs2 : httpFail s2 = true <;> simp [hs2] <;> exact h2
      · rw [if_neg hc]
        by_cases hs1 : httpFail s1 = true <;> simp [hs1] <;> exact h1

end TokenLemmas

/-- C3 counterexample: a refresh-grant request that fails at the network
level (a `requests` transport exception, not an HTTP error status) is
propagated raw to the caller — the `except` clause of `_refresh_token` only
catches `HTTPError` — and no password-grant acquisition follows, refuting
"for every failure of a refresh-grant request, refresh_token falls back to a
full password-grant acquisition instead of propagating the refresh error". -/
theorem C3_counterexample_refresh_netfail_propagates :
    refresh_token ⟨some "a", some "r", some 100⟩ 0 (.netFail "timeout")
        (.http 200 ⟨some "t", none, none⟩ "") =
      (.error (.requestsError "timeout"), [Grant.refresh]) := by decide

/-- C3 (amended): for every refresh-grant request answered with an HTTP error
status, `_refresh_token` falls back to a password-grant acquisition instead
of propagating (network-level transport failures, by contrast, propagate);
when no refresh token is held it delegates directly to acquisition; and in
the expired-token scenario exactly one refresh attempt is made, and when it
returns an HTTP error status exactly one acquisition attempt follows, after
which `access_token` is set. -/
theorem C3_refresh_fallback :
    (∀ (st : TokenState) (now : Int) (s : Nat) (d : TokenData) (b : String) (a : TokenResp),
      pyTruthyStr st.refresh_token = true → httpFail s = true →
      refresh_token st now (.http s d b) a =
        (get_token st now a, [Grant.refresh, Grant.password])) ∧
    (∀ (st : TokenState) (now : Int) (r a : TokenResp),
      pyTruthyStr st.refresh_token = false →
      refresh_token st now r a = (get_token st now a, [Grant.password])) ∧
    (∀ (st : TokenState) (now e : Int) (s s2 : Nat) (d d2 : TokenData) (b b2 t : String),
      pyTruthyStr st.access_token = true → st.token_expires_at = some e →
      e ≠ 0 → e ≤ now →
      pyTruthyStr st.refresh_token = true → httpFail s = true → httpFail s2 = false →
      d2.access_token = some t →
      ensure_valid st now (.http s2 d2 b2) (.http s d b) =
        (.ok ⟨some t, d2.refresh_token, some (now + (d2.expires_in.getD 3600 : Int) - 60)⟩,
         [Grant.refresh, Grant.password])) := by
  refine ⟨refresh_http_fail, refresh_no_rt, ?_⟩
  intro st now e s s2 d d2 b b2 t ht he hne hle hrt hs hs2 hat
  rw [ensure_valid_expired st now e (.http s2 d2 b2) (.http s d b) ht he hne hle,
    refresh_http_fail st now s d b (.http s2 d2 b2) hrt hs,
    get_token_ok st now s2 d2 b2 hs2, hat]

/-- C3 witness: concrete expired-token run in which the refresh attempt
returns HTTP 500 and the fallback acquisition succeeds. -/
theorem C3_refresh_fallback_witness :
    ensure_valid ⟨some "a", some "r", some 100⟩ 200
        (.http 200 ⟨some "t", some "r2", some 7200⟩ "") (.http 500 ⟨none, none, none⟩ "") =
      (.ok ⟨some "t", some "r2", some 7340⟩, [Grant.refresh, Grant.password]) := by
  exact C3_refresh_fallback.2.2 ⟨some "a", some "r", some 100⟩ 200 100 500 200
    ⟨none, none, none⟩ ⟨some "t", some "r2", some 7200⟩ "" "" "t"
    rfl rfl (by decide) (by decide) rfl (by decide) (by decide) rfl

/-- C1 counterexample: in a concrete run where the retried data request also
returns 401, the surfaced exception is `PyExc.httpError` — the very same
Python exception class (`requests.exceptions.HTTPError`) produced by a
generic non-401 failure such as a 500 — refuting the claim that a second 401
is surfaced as an `AuthenticationError` type distinguishable from the
generic `ApiError`.  (The embedding's `AuthenticationError` is
`PyExc.valueError`, the class `_get_token` uses for credential rejection.) -/
theorem C1_counterexample_second_401_same_class :
    (make_request ⟨some "tok", none, some 1000⟩ 0 true (.netFail "na") (.netFail "nr")
        (.http 200 ⟨some "tok2", none, none⟩ "") (.resp 401 "unauthorized")
        (.resp 401 "unauthorized")).1 =
      .error (.httpError "API request failed: 401 - unauthorized") ∧
    (make_request ⟨some "tok", none, some 1000⟩ 0 true (.netFail "na") (.netFail "nr")
        (.http 200 ⟨some "tok2", none, none⟩ "") (.resp 500 "server error")
        (.resp 200 "")).1 =
      .error (.httpError "API request failed: 500 - server error") ∧
    resultExcClass
        (make_request ⟨some "tok", none, some 1000⟩ 0 true (.netFail "na") (.netFail "nr")
          (.http 200 ⟨some "tok2", none, none⟩ "") (.resp 401 "unauthorized")
          (.resp 401 "unauthorized")).1 =
      resultExcClass
        (make_request ⟨some "tok", none, some 1000⟩ 0 true (.netFail "na") (.netFail "nr")
          (.http 200 ⟨some "tok2", none, none⟩ "") (.resp 500 "server error")
          (.resp 200 "")).1 := by decide

/-- C1 (amended): on a 401 with `retry=True`, `_make_request` forces a fresh
password-grant acquisition even though the held token is unexpired
(bypassing the expiry check) and retries the identical request exactly once
— two data requests in total, never a third; if the retried request also
returns 401 the failure is surfaced as the same generic
`requests.exceptions.HTTPError` class used for non-401 failures (carrying
status 401 in its message), not as a distinguishable `AuthenticationError`
type.  The second conjunct gives the non-401 single-request error path for
comparison: the same exception class. -/
theorem C1_make_request_retry_once :
    (∀ (st : TokenState) (now e : Int) (aR rR : TokenResp) (s2 : Nat) (d : TokenData)
       (tb b1 b2 : String),
      pyTruthyStr st.access_token = true → st.token_expires_at = some e → now < e →
      httpFail s2 = false →
      make_request st now true aR rR (.http s2 d tb) (.resp 401 b1) (.resp 401 b2) =
        (.error (.httpError ("API request failed: " ++ toString 401 ++ " - " ++ b2)),
         ⟨d.access_token, d.refresh_token, some (now + (d.expires_in.getD 3600 : Int) - 60)⟩,
         2, [Grant.password])) ∧
    (∀ (st : TokenState) (now e : Int) (aR rR tok : TokenResp) (s1 : Nat) (b1 : String)
       (g2 : GetResp),
      pyTruthyStr st.access_token = true → st.token_expires_at = some e → now < e →
      s1 ≠ 401 → httpFail s1 = true →
      make_request st now true aR rR tok (.resp s1 b1) g2 =
        (.error (.httpError ("API request failed: " ++ toString s1 ++ " - " ++ b1)),
         st, 1, [])) := by
  constructor
  · intro st now e aR rR s2 d tb b1 b2 ht he hlt hs2
    unfold make_request
    rw [ensure_valid_fresh st now e aR rR ht he hlt]
    dsimp only
    rw [get_token_ok st now s2 d tb hs2]
    simp [httpFail]
  · intro st now e aR rR tok s1 b1 g2 ht he hlt hne hs1
    unfold make_request
    rw [ensure_valid_fresh st now e aR rR ht he hlt]
    dsimp only
    rw [if_neg (by simp [hne]), if_pos hs1]

/-- C1 witness: concrete fresh-token run with a 401, a successful forced
re-acquisition, and a second 401. -/
theorem C1_make_request_retry_once_witness :
    make_request ⟨some "tok", none, some 1000⟩ 0 true (.netFail "na") (.netFail "nr")
        (.http 200 ⟨some "tok2", none, none⟩ "") (.resp 401 "x") (.resp 401 "y") =
      (.error (.httpError ("API request failed: " ++ toString 401 ++ " - " ++ "y")),
       ⟨(⟨some "tok2", none, none⟩ : TokenData).access_token,
        (⟨some "tok2", none, none⟩ : TokenData).refresh_token,
        some (0 + ((⟨some "tok2", none, none⟩ : TokenData).expires_in.getD 3600 : Int) - 60)⟩,
       2, [Grant.password]) :=
  C1_make_request_retry_once.1 ⟨some "tok", none, some 1000⟩ 0 1000 (.netFail "na")
    (.netFail "nr") 200 ⟨some "tok2", none, none⟩ "" "x" "y" rfl rfl (by decide) rfl

/-- C4: `_ensure_valid_token` is a no-op whenever a (truthy) access token is
held and its expiry lies strictly in the future — no token request is issued
and the state is unchanged; when no access token is held it calls
`_get_token`; when the (truthy) expiry has been reached it calls
`_refresh_token`; and two consecutive calls starting from the no-token state
issue exactly one password-grant acquisition in total. -/
theorem C4_ensure_valid_idempotent :
    (∀ (st : TokenState) (now e : Int) (a r : TokenResp),
      pyTruthyStr st.access_token = true → st.token_expires_at = some e → now < e →
      ensure_valid st now a r = (.ok st, [])) ∧
    (∀ (st : TokenState) (now : Int) (a r : TokenResp),
      pyTruthyStr st.access_token = false →
      ensure_valid st now a r = (get_token st now a, [Grant.password])) ∧
    (∀ (st : TokenState) (now e : Int) (a r : TokenResp),
      pyTruthyStr st.access_token = true → st.token_expires_at = some e →
      e ≠ 0 → e ≤ now →
      ensure_valid st now a r = refresh_token st now r a) ∧
    (∀ (now1 now2 : Int) (s : Nat) (d : TokenData) (t b : String) (r a2 r2 : TokenResp),
      httpFail s = false → d.access_token = some t → t ≠ "" →
      now2 < now1 + (d.expires_in.getD 3600 : Int) - 60 →
      ensure_valid ⟨none, none, none⟩ now1 (.http s d b) r =
        (.ok ⟨some t, d.refresh_token, some (now1 + (d.expires_in.getD 3600 : Int) - 60)⟩,
         [Grant.password]) ∧
      ensure_valid ⟨some t, d.refresh_token, some (now1 + (d.expires_in.getD 3600 : Int) - 60)⟩
          now2 a2 r2 =
        (.ok ⟨some t, d.refresh_token, some (now1 + (d.expires_in.getD 3600 : Int) - 60)⟩,
         [])) := by
  refine ⟨fun st now e a r => ensure_valid_fresh st now e a r,
    fun st now a r => ensure_valid_no_token st now a r,
    fun st now e a r => ensure_valid_expired st now e a r, ?_⟩
  intro now1 now2 s d t b r a2 r2 hs hat htne hlt
  constructor
  · rw [ensure_valid_no_token ⟨none, none, none⟩ now1 (.http s d b) r rfl,
      get_token_ok ⟨none, none, none⟩ now1 s d b hs, hat]
  · exact ensure_valid_fresh _ now2 (now1 + (d.expires_in.getD 3600 : Int) - 60) a2 r2
      (pyTruthyStr_some htne) rfl hlt

/-- C4 witness: a fresh-token state on which `_ensure_valid_token` is a
no-op at a concrete time. -/
theorem C4_ensure_valid_idempotent_witness :
    ensure_valid ⟨some "tok", none, some 100⟩ 0 (.netFail "x") (.netFail "y") =
      (.ok ⟨some "tok", none, some 100⟩, []) :=
  C4_ensure_valid_idempotent.1 ⟨some "tok", none, some 100⟩ 0 100
    (.netFail "x") (.netFail "y") rfl rfl (by decide)

/-- C5: whenever `_get_token` succeeds, the whole token state is overwritten
and the expiry is the issue time plus the response's `expires_in`
(defaulting to 3600 when absent) minus the 60-second safety margin; the same
expiry formula holds for every successful `_refresh_token`
and every state-changing `_ensure_valid_token`; the invariant "access token
present implies expiry present" is established by `_get_token` and preserved
through `_make_request`; and on a response without `expires_in` the default
3600 yields expiry `issue_time + 3600 - 60`. -/
theorem C5_token_expiry_invariant :
    (∀ (st : TokenState) (now : Int) (s : Nat) (d : TokenData) (b : String) (st' : TokenState),
      get_token st now (.http s d b) = .ok st' →
      st' = ⟨d.access_token, d.refresh_token,
        some (now + (d.expires_in.getD 3600 : Int) - 60)⟩) ∧
    (∀ (st : TokenState) (now : Int) (r a : TokenResp) (st' : TokenState) (gs : List Grant),
      refresh_token st now r a = (.ok st', gs) →
      st'.token_expires_at = some (now + (respExpiresIn r : Int) - 60) ∨
        st'.token_expires_at = some (now + (respExpiresIn a : Int) - 60)) ∧
    (∀ (st : TokenState) (now : Int) (a r : TokenResp) (st' : TokenState) (gs : List Grant),
      ensure_valid st now a r = (.ok st', gs) →
      st' = st ∨ st'.token_expires_at = some (now + (respExpiresIn a : Int) - 60) ∨
        st'.token_expires_at = some (now + (respExpiresIn r : Int) - 60)) ∧
    (∀ (st : TokenState) (now : Int) (resp : TokenResp) (st' : TokenState),
      get_token st now resp = .ok st' → TokenInv st') ∧
    (∀ (st : TokenState) (now : Int) (retry : Bool) (aR rR tok : TokenResp) (g1 g2 : GetResp),
      TokenInv st → TokenInv (make_request st now retry aR rR tok g1 g2).2.1) ∧
    get_token ⟨none, none, none⟩ 0 (.http 200 ⟨some "t", none, none⟩ "") =
      .ok ⟨some "t", none, some 3540⟩ := by
  exact ⟨get_token_ok_state, refresh_ok_expiry, ensure_ok_cases, tokenInv_get_token,
    tokenInv_make_request, by decide⟩

/-- C5 witness: the invariant holds of the state produced by a concrete
successful acquisition. -/
theorem C5_token_expiry_invariant_witness :
    TokenInv ⟨some "t", none, some 3540⟩ :=
  C5_token_expiry_invariant.2.2.2.1 ⟨none, none, none⟩ 0
    (.http 200 ⟨some "t", none, none⟩ "") ⟨some "t", none, some 3540⟩ (by decide)

section PaginationLemmas

variable {A : Type}

/-- The ceiling check runs before the page request: when it fires, the loop
exits with the accumulator and no request issued. -/
lemma gap_step_ceil (fetch : Nat → Except PyExc (Page A)) (limit : Nat)
    (mp : Option Nat) (fuel offset page : Nat) (acc : List A)
    (h : maxPagesCeil mp page = true) :
    get_all_pages_aux fetch limit mp (fuel + 1) offset page acc = .ok acc 0 := by
  simp [get_all_pages_aux, h]

/-- An exception from the page fetch is propagated; the accumulator is
dropped. -/
lemma gap_step_err (fetch : Nat → Except PyExc (Page A)) (limit : Nat)
    (mp : Option Nat) (fuel offset page : Nat) (acc : List A) (e : PyExc)
    (h : maxPagesCeil mp page = false) (hf : fetch offset = .error e) :
    get_all_pages_aux fetch limit mp (fuel + 1) offset page acc = .err e 1 := by
  simp [get_all_pages_aux, h, hf]

/-- A page with zero records ends the loop after this (single) request. -/
lemma gap_step_empty (fetch : Nat → Except PyExc (Page A)) (limit : Nat)
    (mp : Option Nat) (fuel offset page : Nat) (acc : List A) (c : Nat)
    (h : maxPagesCeil mp page = false) (hf : fetch offset = .ok ⟨[], c⟩) :
    get_all_pages_aux fetch limit mp (fuel + 1) offset page acc = .ok acc 1 := by
  simp [get_all_pages_aux, h, hf]

/-- A short page, or an accumulator reaching the reported count, ends the
loop after this request with the page appended. -/
lemma gap_step_last (fetch : Nat → Except PyExc (Page A)) (limit : Nat)
    (mp : Option Nat) (fuel offset page : Nat) (acc : List A) (d : List A) (c : Nat)
    (h : maxPagesCeil mp page = false) (hf : fetch offset = .ok ⟨d, c⟩)
    (hd : d ≠ [])
    (hstop : d.length < limit ∨ acc.length + d.length ≥ c) :
    get_all_pages_aux fetch limit mp (fuel + 1) offset page acc =
      .ok (acc ++ d) 1 := by
  have hne : d.isEmpty = false := by
    cases hdata : d with
    | nil => exact absurd hdata hd
    | cons a l => simp
  simp [get_all_pages_aux, h, hf, hne, hstop]

/-- When no termination condition holds, the loop continues at the next
offset and page with the page appended, recording the request. -/
lemma gap_step_cont (fetch : Nat → Except PyExc (Page A)) (limit : Nat)
    (mp : Option Nat) (fuel offset page : Nat) (acc : List A) (d : List A) (c : Nat)
    (h : maxPagesCeil mp page = false) (hf : fetch offset = .ok ⟨d, c⟩)
    (hd : d ≠ []) (hlen : ¬d.length < limit)
    (hcount : acc.length + d.length < c) :
    get_all_pages_aux fetch limit mp (fuel + 1) offset page acc =
      addReq (get_all_pages_aux fetch limit mp fuel (offset + limit) (page + 1)
        (acc ++ d)) := by
  have hne : d.isEmpty = false := by
    cases hdata : d with
    | nil => exact absurd hdata hd
    | cons a l => simp
  have hstop : ¬(d.length < limit ∨ acc.length + d.length ≥ c) := by
    push_neg
    exact ⟨Nat.le_of_not_lt hlen, hcount⟩
  simp [get_all_pages_aux, h, hf, hne, hstop]

end PaginationLemmas

/-- The three-page oracle of the specification's pagination scenario:
every request returns the next slice of 2400 records, 1000 at a time. -/
def threePageFetch : Nat → Except PyExc (Page Nat) :=
  fun off => .ok ⟨((List.range 2400).drop off).take 1000, 2400⟩

/-- The slice of records page `off` of `threePageFetch` returns. -/
def threeSlice (off : Nat) : List Nat := ((List.range 2400).drop off).take 1000

lemma threeSlice_length (off : Nat) :
    (threeSlice off).length = min 1000 (2400 - off) := by
  simp [threeSlice]

lemma three_pages_concat :
    (([] ++ threeSlice 0) ++ threeSlice 1000) ++ threeSlice 2000 = List.range 2400 := by
  have e1 : threeSlice 0 = ((List.range 2400).take 2000).take 1000 := by
    unfold threeSlice
    rw [List.drop_zero, List.take_take]
    norm_num
  have e2 : threeSlice 1000 = ((List.range 2400).take 2000).drop 1000 := by
    unfold threeSlice
    rw [List.take_drop]
  have e3 : threeSlice 2000 = (List.range 2400).drop 2000 := by
    unfold threeSlice
    apply List.take_of_length_le
    simp
  rw [List.nil_append, e1, e2, e3, List.take_append_drop, List.take_append_drop]

lemma three_pages_run :
    get_all_pages threePageFetch 1000 none 10 = .ok (List.range 2400) 3 := by
  have l0 : (threeSlice 0).length = 1000 := by rw [threeSlice_length]; omega
  have l1 : (threeSlice 1000).length = 1000 := by rw [threeSlice_length]; omega
  have l2 : (threeSlice 2000).length = 400 := by rw [threeSlice_length]; omega
  have h0 : get_all_pages_aux threePageFetch 1000 none 10 0 1 [] =
      addReq (get_all_pages_aux threePageFetch 1000 none 9 1000 2 ([] ++ threeSlice 0)) :=
    gap_step_cont threePageFetch 1000 none 9 0 1 [] (threeSlice 0) 2400
      rfl rfl (by intro hnil; rw [hnil] at l0; simp at l0)
      (by omega)
      (by simp only [List.length_nil, l0]; omega)
  have h1 : get_all_pages_aux threePageFetch 1000 none 9 1000 2 ([] ++ threeSlice 0) =
      addReq (get_all_pages_aux threePageFetch 1000 none 8 2000 3
        (([] ++ threeSlice 0) ++ threeSlice 1000)) :=
    gap_step_cont threePageFetch 1000 none 8 1000 2 ([] ++ threeSlice 0)
      (threeSlice 1000) 2400 rfl rfl
      (by intro hnil; rw [hnil] at l1; simp at l1)
      (by omega)
      (by simp only [List.length_append, List.length_nil, l0, l1]; omega)
  have h2 : get_all_pages_aux threePageFetch 1000 none 8 2000 3
        (([] ++ threeSlice 0) ++ threeSlice 1000) =
      .ok ((([] ++ threeSlice 0) ++ threeSlice 1000) ++ threeSlice 2000) 1 :=
    gap_step_last threePageFetch 1000 none 7 2000 3
      (([] ++ threeSlice 0) ++ threeSlice 1000) (threeSlice 2000) 2400 rfl rfl
      (by intro hnil; rw [hnil] at l2; simp at l2)
      (Or.inl (by omega))
  rw [get_all_pages, h0, h1, h2, three_pages_concat]
  rfl

lemma requests_addReq {A : Type} (x : GAPOut A) : (addReq x).requests = x.requests + 1 := by
  cases x <;> rfl

lemma gap_requests_pos {A : Type} (fetch : Nat → Except PyExc (Page A)) (limit : Nat)
    (mp : Option Nat) (fuel offset page : Nat) (acc : List A)
    (h : maxPagesCeil mp page = false) :
    1 ≤ (get_all_pages_aux fetch limit mp (fuel + 1) offset page acc).requests := by
  unfold get_all_pages_aux
  rw [if_neg (by simp [h])]
  cases hf : fetch offset with
  | error e => simp [GAPOut.requests]
  | ok pg =>
    by_cases hd : pg.data.isEmpty = true
    · simp [hd, GAPOut.requests]
    · by_cases hs : pg.data.length < limit ∨ acc.length + pg.data.length ≥ pg.count
      · simp [hd, hs, GAPOut.requests]
      · simp [hd, hs, requests_addReq]

lemma gap_aux_some_zero {A : Type} (fetch : Nat → Except PyExc (Page A)) (limit : Nat) :
    ∀ (fuel offset page : Nat) (acc : List A),
      get_all_pages_aux fetch limit (some 0) fuel offset page acc =
        get_all_pages_aux fetch limit none fuel offset page acc := by
  intro fuel
  induction fuel with
  | zero => intro offset page acc; rfl
  | succ m ih =>
    intro offset page acc
    unfold get_all_pages_aux
    have hc : maxPagesCeil (some 0) page = maxPagesCeil none page := by
      simp [maxPagesCeil]
    rw [hc]
    cases hf : fetch offset with
    | error e => rfl
    | ok pg =>
      by_cases hd : pg.data.isEmpty = true
      · simp [hd]
      · by_cases hs : pg.data.length < limit ∨ acc.length + pg.data.length ≥ pg.count
        · simp [hd, hs]
        · simp [hd, hs, ih]

lemma gap_aux_requests_le {A : Type} (fetch : Nat → Except PyExc (Page A)) (limit : Nat)
    (n : Nat) (hn : n ≠ 0) :
    ∀ (fuel offset page : Nat) (acc : List A), 1 ≤ page →
      (get_all_pages_aux fetch limit (some n) fuel offset page acc).requests ≤
        n + 1 - page := by
  intro fuel
  induction fuel with
  | zero => intro offset page acc hp; simp [get_all_pages_aux, GAPOut.requests]
  | succ m ih =>
    intro offset page acc hp
    by_cases hceil : maxPagesCeil (some n) page = true
    · rw [gap_step_ceil fetch limit (some n) m offset page acc hceil]
      simp [GAPOut.requests]
    · have hpn : page ≤ n := by
        simp [maxPagesCeil, hn] at hceil
        omega
      unfold get_all_pages_aux
      rw [if_neg hceil]
      cases hf : fetch offset with
      | error e =>
        simp [GAPOut.requests]
        omega
      | ok pg =>
        by_cases hd : pg.data.isEmpty = true
        · simp [hd, GAPOut.requests]
          omega
        · by_cases hs : pg.data.length < limit ∨ acc.length + pg.data.length ≥ pg.count
          · simp [hd, hs, GAPOut.requests]
            omega
          · have hrec := ih (offset + limit) (page + 1) (acc ++ pg.data) (by omega)
            simp [hd, hs, requests_addReq]
            omega

/-- C2: the pagination loop of `get_all_pages` terminates after a page
exactly when one of the four conditions holds, in order: the `max_pages`
ceiling is checked before the page request (zero requests for that page),
then — after one request — zero records, a short page, or an accumulator
reaching the reported count each stop the loop, and when none holds the
loop issues a further request.  On the specification's concrete scenario
(limit 1000; pages of 1000, 1000, 400 records; count 2400) it issues
exactly 3 requests and returns all 2400 records in page order. -/
theorem C2_pagination_termination :
    get_all_pages threePageFetch 1000 none 10 = .ok (List.range 2400) 3 ∧
    (∀ (A : Type) (fetch : Nat → Except PyExc (Page A)) (limit : Nat) (mp : Option Nat)
       (fuel offset page : Nat) (acc : List A),
      maxPagesCeil mp page = true →
      get_all_pages_aux fetch limit mp (fuel + 1) offset page acc = .ok acc 0) ∧
    (∀ (A : Type) (fetch : Nat → Except PyExc (Page A)) (limit : Nat) (mp : Option Nat)
       (fuel offset page : Nat) (acc : List A) (c : Nat),
      maxPagesCeil mp page = false → fetch offset = .ok ⟨[], c⟩ →
      get_all_pages_aux fetch limit mp (fuel + 1) offset page acc = .ok acc 1) ∧
    (∀ (A : Type) (fetch : Nat → Except PyExc (Page A)) (limit : Nat) (mp : Option Nat)
       (fuel offset page : Nat) (acc : List A) (d : List A) (c : Nat),
      maxPagesCeil mp page = false → fetch offset = .ok ⟨d, c⟩ → d ≠ [] →
      (d.length < limit ∨ acc.length + d.length ≥ c) →
      get_all_pages_aux fetch limit mp (fuel + 1) offset page acc = .ok (acc ++ d) 1) ∧
    (∀ (A : Type) (fetch : Nat → Except PyExc (Page A)) (limit : Nat) (mp : Option Nat)
       (fuel offset page : Nat) (acc : List A) (d : List A) (c : Nat),
      maxPagesCeil mp page = false → maxPagesCeil mp (page + 1) = false →
      fetch offset = .ok ⟨d, c⟩ → d ≠ [] → ¬d.length < limit →
      acc.length + d.length < c →
      2 ≤ (get_all_pages_aux fetch limit mp (fuel + 2) offset page acc).requests) := by
  refine ⟨three_pages_run,
    fun A fetch limit mp fuel offset page acc h =>
      gap_step_ceil fetch limit mp fuel offset page acc h,
    fun A fetch limit mp fuel offset page acc c h hf =>
      gap_step_empty fetch limit mp fuel offset page acc c h hf,
    fun A fetch limit mp fuel offset page acc d c h hf hd hs =>
      gap_step_last fetch limit mp fuel offset page acc d c h hf hd hs, ?_⟩
  intro A fetch limit mp fuel offset page acc d c h h2 hf hd hlen hcount
  rw [gap_step_cont fetch limit mp (fuel + 1) offset page acc d c h hf hd hlen hcount,
    requests_addReq]
  have := gap_requests_pos fetch limit mp fuel (offset + limit) (page + 1) (acc ++ d) h2
  omega

/-- C2 witness: the zero-records condition stopping a concrete loop after a
single request. -/
theorem C2_pagination_termination_witness :
    get_all_pages_aux (fun _ => .ok (⟨[], 7⟩ : Page Nat)) 5 none 4 0 1 [] = .ok [] 1 :=
  C2_pagination_termination.2.2.1 Nat (fun _ => .ok ⟨[], 7⟩) 5 none 3 0 1 [] 7 rfl rfl

/-- C7: an exception raised during any page fetch aborts the whole
`get_all_pages` run — the loop result is the propagated exception, which
carries none of the records accumulated from earlier pages.  The second
conjunct runs this end to end: a full first page followed by a failing
second fetch yields the propagated error after 2 requests, not the
first page's records. -/
theorem C7_fetch_all_propagates :
    (∀ (A : Type) (fetch : Nat → Except PyExc (Page A)) (limit : Nat) (mp : Option Nat)
       (fuel offset page : Nat) (acc : List A) (e : PyExc),
      maxPagesCeil mp page = false → fetch offset = .error e →
      get_all_pages_aux fetch limit mp (fuel + 1) offset page acc = .err e 1) ∧
    (∀ (A : Type) (fetch : Nat → Except PyExc (Page A)) (limit : Nat) (d1 : List A)
       (c1 : Nat) (e : PyExc) (fuel : Nat),
      fetch 0 = .ok ⟨d1, c1⟩ → d1 ≠ [] → ¬d1.length < limit → d1.length < c1 →
      fetch limit = .error e →
      get_all_pages fetch limit none (fuel + 2) = .err e 2) := by
  refine ⟨fun A fetch limit mp fuel offset page acc e h hf =>
    gap_step_err fetch limit mp fuel offset page acc e h hf, ?_⟩
  intro A fetch limit d1 c1 e fuel hf0 hd hlen hc hfe
  rw [get_all_pages,
    gap_step_cont fetch limit none (fuel + 1) 0 1 [] d1 c1 rfl hf0 hd hlen
      (by simpa using hc),
    gap_step_err fetch limit none fuel (0 + limit) (1 + 1) ([] ++ d1) e rfl
      (by rw [Nat.zero_add]; exact hfe)]
  rfl

/-- C7 witness: a concrete two-page run whose second fetch raises; the run
propagates the error and returns none of the 3 first-page records. -/
theorem C7_fetch_all_propagates_witness :
    get_all_pages
        (fun off => if off = 0 then .ok (⟨[10, 11, 12], 9⟩ : Page Nat)
          else .error (.connectionError "boom")) 3 none 6 =
      .err (.connectionError "boom") 2 :=
  C7_fetch_all_propagates.2 Nat
    (fun off => if off = 0 then .ok ⟨[10, 11, 12], 9⟩
      else .error (.connectionError "boom")) 3 [10, 11, 12] 9
    (.connectionError "boom") 4 rfl (by decide) (by decide) (by decide) rfl

/-- C8: whenever the second page of a `get_all_pages` run returns zero
records, the loop stops after exactly 2 requests and returns the first
page's records, for every reported total count `c2` — the zero-records
condition overrides a not-yet-reached total. -/
theorem C8_second_page_empty :
    ∀ (A : Type) (fetch : Nat → Except PyExc (Page A)) (limit : Nat) (mp : Option Nat)
      (d1 : List A) (c1 c2 fuel : Nat),
      maxPagesCeil mp 1 = false → maxPagesCeil mp 2 = false →
      fetch 0 = .ok ⟨d1, c1⟩ → d1 ≠ [] → ¬d1.length < limit → d1.length < c1 →
      fetch limit = .ok ⟨[], c2⟩ →
      get_all_pages fetch limit mp (fuel + 2) = .ok d1 2 := by
  intro A fetch limit mp d1 c1 c2 fuel h1 h2 hf0 hd hlen hc hf2
  rw [get_all_pages,
    gap_step_cont fetch limit mp (fuel + 1) 0 1 [] d1 c1 h1 hf0 hd hlen
      (by simpa using hc),
    gap_step_empty fetch limit mp fuel (0 + limit) (1 + 1) ([] ++ d1) c2 h2
      (by rw [Nat.zero_add]; exact hf2)]
  simp [addReq]

/-- C8 witness: a concrete run whose second page is empty despite a huge
reported count stops after 2 requests with the first page's records. -/
theorem C8_second_page_empty_witness :
    get_all_pages
        (fun off => if off = 0 then .ok (⟨[5, 6], 1000000⟩ : Page Nat)
          else .ok ⟨[], 1000000⟩) 2 none 7 =
      .ok [5, 6] 2 :=
  C8_second_page_empty Nat
    (fun off => if off = 0 then .ok ⟨[5, 6], 1000000⟩ else .ok ⟨[], 1000000⟩)
    2 none [5, 6] 1000000 1000000 5 rfl rfl rfl (by decide) (by decide) (by decide) rfl

/-- C10: the `if max_pages and page > max_pages` guard uses Python
truthiness, so `max_pages=0` behaves exactly like `max_pages=None`
(an unbounded fetch, not zero pages), while every positive `max_pages=n`
bounds the run to at most `n` data requests. -/
theorem C10_max_pages_truthiness :
    (∀ (A : Type) (fetch : Nat → Except PyExc (Page A)) (limit fuel : Nat),
      get_all_pages fetch limit (some 0) fuel = get_all_pages fetch limit none fuel) ∧
    (∀ (A : Type) (fetch : Nat → Except PyExc (Page A)) (limit fuel n : Nat), 0 < n →
      (get_all_pages fetch limit (some n) fuel).requests ≤ n) := by
  constructor
  · intro A fetch limit fuel
    exact gap_aux_some_zero fetch limit fuel 0 1 []
  · intro A fetch limit fuel n hn
    have h := gap_aux_requests_le fetch limit n (by omega) fuel 0 1 [] (le_refl 1)
    rw [get_all_pages]
    omega

/-- C10 witness: a concrete always-full oracle is bounded to 3 requests by
`max_pages = 3`. -/
theorem C10_max_pages_truthiness_witness :
    (get_all_pages (fun _ => .ok (⟨[0], 100⟩ : Page Nat)) 1 (some 3) 10).requests ≤ 3 :=
  C10_max_pages_truthiness.2 Nat (fun _ => .ok ⟨[0], 100⟩) 1 10 3 (by decide)

section DedupLemmas

lemma dedupByKey_cons_mem {K : Type} [DecidableEq K] (key : Rec → K) (seen : List K)
    (r : Rec) (rest : List Rec) (h : key r ∈ seen) :
    dedupByKey key seen (r :: rest) = dedupByKey key seen rest := by
  simp [dedupByKey, h]

lemma dedupByKey_cons_new {K : Type} [DecidableEq K] (key : Rec → K) (seen : List K)
    (r : Rec) (rest : List Rec) (h : key r ∉ seen) :
    dedupByKey key seen (r :: rest) = r :: dedupByKey key (key r :: seen) rest := by
  simp [dedupByKey, h]

lemma dedupByKey_sublist {K : Type} [DecidableEq K] (key : Rec → K) :
    ∀ (seen : List K) (rs : List Rec), (dedupByKey key seen rs).Sublist rs := by
  intro seen rs
  induction rs generalizing seen with
  | nil => simp [dedupByKey]
  | cons r rest ih =>
    by_cases h : key r ∈ seen
    · rw [dedupByKey_cons_mem key seen r rest h]
      exact List.Sublist.cons r (ih seen)
    · rw [dedupByKey_cons_new key seen r rest h]
      exact List.Sublist.cons₂ r (ih (key r :: seen))

lemma dedupByKey_find? {K : Type} [DecidableEq K] (key : Rec → K) :
    ∀ (rs : List Rec) (seen : List K) (k : K), k ∉ seen →
      (dedupByKey key seen rs).find? (fun r => decide (key r = k)) =
        rs.find? (fun r => decide (key r = k)) := by
  intro rs
  induction rs with
  | nil => intro seen k _; rfl
  | cons r rest ih =>
    intro seen k hk
    by_cases h : key r ∈ seen
    · have hkr : ¬(key r = k) := fun hek => hk (hek ▸ h)
      rw [dedupByKey_cons_mem key seen r rest h, ih seen k hk,
        List.find?_cons_of_neg _ (by simpa using hkr)]
    · rw [dedupByKey_cons_new key seen r rest h]
      by_cases hek : key r = k
      · rw [List.find?_cons_of_pos _ (by simpa using hek),
          List.find?_cons_of_pos _ (by simpa using hek)]
      · rw [List.find?_cons_of_neg _ (by simpa using hek),
          List.find?_cons_of_neg _ (by simpa using hek)]
        refine ih (key r :: seen) k ?_
        intro hmem
        rcases List.mem_cons.mp hmem with h1 | h1
        · exact hek h1.symm
        · exact hk h1

end DedupLemmas

/-- C6: the deduplication step keys records by the fixed preference order —
`data_id` when that column exists, else `event_id` when that column exists,
else entire-record equality — keeps the first-seen occurrence of each key
(the first record carrying any key in the output is the first record
carrying it in the input), is stable (the output is a sublist of the input,
so survivor order is input order), and reports the number removed as input
length minus output length.  On the specification's three-record input it
returns the first two records and reports 1 removed. -/
theorem C6_deduplicate :
    deduplicate [[("data_id", Val.int 1), ("v", Val.str "a")],
                 [("data_id", Val.int 2), ("v", Val.str "b")],
                 [("data_id", Val.int 1), ("v", Val.str "c")]] =
      ([[("data_id", Val.int 1), ("v", Val.str "a")],
        [("data_id", Val.int 2), ("v", Val.str "b")]], 1) ∧
    (∀ rs : List Rec, (deduplicate rs).1.Sublist rs) ∧
    (∀ (K : Type) (inst : DecidableEq K) (key : Rec → K) (rs : List Rec) (k : K),
      (dedupByKey key [] rs).find? (fun r => decide (key r = k)) =
        rs.find? (fun r => decide (key r = k))) ∧
    (∀ rs : List Rec, (deduplicate rs).2 = rs.length - (deduplicate rs).1.length) ∧
    (∀ rs : List Rec, hasColumn rs "data_id" = true →
      (deduplicate rs).1 = dedupByKey (fun r => r.lookup "data_id") [] rs) ∧
    (∀ rs : List Rec, hasColumn rs "data_id" = false → hasColumn rs "event_id" = true →
      (deduplicate rs).1 = dedupByKey (fun r => r.lookup "event_id") [] rs) ∧
    (∀ rs : List Rec, hasColumn rs "data_id" = false → hasColumn rs "event_id" = false →
      (deduplicate rs).1 = dedupByKey (fun r => r) [] rs) := by
  refine ⟨by decide, ?_, ?_, fun rs => rfl, ?_, ?_, ?_⟩
  · intro rs
    unfold deduplicate
    by_cases h1 : hasColumn rs "data_id" = true
    · simp only [h1, if_true]
      exact dedupByKey_sublist _ [] rs
    · by_cases h2 : hasColumn rs "event_id" = true
      · simp only [h1, h2, if_false, if_true]
        exact dedupByKey_sublist _ [] rs
      · simp only [h1, h2, if_false]
        exact dedupByKey_sublist _ [] rs
  · intro K inst key rs k
    exact dedupByKey_find? key rs [] k (List.not_mem_nil k)
  · intro rs h1
    simp [deduplicate, h1]
  · intro rs h1 h2
    simp [deduplicate, h1, h2]
  · intro rs h1 h2
    simp [deduplicate, h1, h2]

/-- C6 witness: the `data_id` branch selected on a concrete one-record
input. -/
theorem C6_deduplicate_witness :
    (deduplicate [[("data_id", Val.int 1)]]).1 =
      dedupByKey (fun r => r.lookup "data_id") [] [[("data_id", Val.int 1)]] :=
  C6_deduplicate.2.2.2.2.1 [[("data_id", Val.int 1)]] rfl

section ParamLemmas

lemma lookup_dictSet_ne {V : Type} (d : List (String × V)) (k k2 : String) (v : V)
    (h : k ≠ k2) : (dictSet d k2 v).lookup k = d.lookup k := by
  have hkk : (k == k2) = false := by
    simp [h]
  induction d with
  | nil => simp [dictSet, List.lookup, hkk]
  | cons kv rest ih =>
    rcases kv with ⟨a, b⟩
    by_cases ha : a = k2
    · subst ha
      simp [dictSet, List.lookup, hkk]
    · simp only [dictSet, if_neg ha, List.lookup]
      cases hak : k == a
      · simpa only [hak] using ih
      · simp [hak]

lemma lookup_dictMerge {V : Type} (e : List (String × V)) :
    ∀ (d : List (String × V)) (k : String), k ∉ e.map Prod.fst →
      (dictMerge d e).lookup k = d.lookup k := by
  induction e with
  | nil => intro d k _; rfl
  | cons kv es ih =>
    intro d k hk
    rcases kv with ⟨k2, v2⟩
    have hne : k ≠ k2 := by
      intro hkk
      exact hk (by simp [hkk])
    have hk2 : k ∉ es.map Prod.fst := by
      intro hmem
      exact hk (by simp [hmem])
    show (dictMerge (dictSet d k2 v2) es).lookup k = d.lookup k
    rw [ih (dictSet d k2 v2) k hk2, lookup_dictSet_ne d k k2 v2 hne]

lemma lookup_setIfStr_ne {p : List (String × Val)} {k k2 : String}
    {o : Option String} (h : k ≠ k2) : (setIfStr p k2 o).lookup k = p.lookup k := by
  cases o with
  | none => rfl
  | some s =>
    simp only [setIfStr]
    split
    · exact lookup_dictSet_ne p k k2 _ h
    · rfl

lemma lookup_setIfInt_ne {p : List (String × Val)} {k k2 : String}
    {o : Option Int} (h : k ≠ k2) : (setIfInt p k2 o).lookup k = p.lookup k := by
  cases o with
  | none => rfl
  | some i =>
    simp only [setIfInt]
    split
    · exact lookup_dictSet_ne p k k2 _ h
    · rfl

lemma lookup_setIfFields_ne {p : List (String × Val)} {k : String}
    {o : Option (List String)} (h : k ≠ "fields") :
    (setIfFields p o).lookup k = p.lookup k := by
  cases o with
  | none => rfl
  | some fs =>
    simp only [setIfFields]
    split
    · exact lookup_dictSet_ne p k "fields" _ h
    · rfl

end ParamLemmas

/-- C9: the extra `**kwargs` parameters are merged into the query dict as an
open string-keyed mapping, and — because Python's call binding prevents a
`kwargs` entry from sharing a name with a declared parameter — for every
`kwargs` mapping containing neither a `"limit"` nor an `"offset"` key, the
`limit` and `offset` values of the issued query equal the `limit` and
`offset` arguments, whatever filters are set. -/
theorem C9_kwargs_no_collision :
    ∀ (limit offset : Int) (country : Option String) (iso : Option Int)
      (event_type : Option String) (event_date : Option String) (year : Option Int)
      (year_where : Option String) (fields : Option (List String))
      (kwargs : List (String × Val)),
      "limit" ∉ kwargs.map Prod.fst → "offset" ∉ kwargs.map Prod.fst →
      (get_data_params limit offset country iso event_type event_date year year_where
          fields kwargs).lookup "limit" = some (Val.int limit) ∧
      (get_data_params limit offset country iso event_type event_date year year_where
          fields kwargs).lookup "offset" = some (Val.int offset) := by
  intro limit offset country iso event_type event_date year year_where fields kwargs hl ho
  unfold get_data_params
  constructor
  · rw [lookup_setIfFields_ne (by decide), lookup_setIfStr_ne (by decide),
      lookup_setIfInt_ne (by decide), lookup_setIfStr_ne (by decide),
      lookup_setIfStr_ne (by decide), lookup_setIfInt_ne (by decide),
      lookup_setIfStr_ne (by decide), lookup_dictMerge kwargs _ "limit" hl]
    rfl
  · rw [lookup_setIfFields_ne (by decide), lookup_setIfStr_ne (by decide),
      lookup_setIfInt_ne (by decide), lookup_setIfStr_ne (by decide),
      lookup_setIfStr_ne (by decide), lookup_setIfInt_ne (by decide),
      lookup_setIfStr_ne (by decide), lookup_dictMerge kwargs _ "offset" ho]
    rfl

/-- C9 witness: a concrete call with an extra kwargs filter keeps the
declared `limit` and `offset` in the issued query. -/
theorem C9_kwargs_no_collision_witness :
    (get_data_params 1000 0 (some "Ethiopia") (some 231) none none (some 2018)
        (some "BETWEEN") none [("timestamp", Val.int 5)]).lookup "limit" =
      some (Val.int 1000) ∧
    (get_data_params 1000 0 (some "Ethiopia") (some 231) none none (some 2018)
        (some "BETWEEN") none [("timestamp", Val.int 5)]).lookup "offset" =
      some (Val.int 0) :=
  C9_kwargs_no_collision 1000 0 (some "Ethiopia") (some 231) none none (some 2018)
    (some "BETWEEN") none [("timestamp", Val.int 5)] (by decide) (by decide)
